import Mathlib

/-!
Shallow embedding of `src/iss-exporter/src/setup-position-tracking.ts`.

The repository's core is the `loadPosition` closure produced by
`positionLoader`: one poll of the Open Notify position API that fetches a
URL, parses the JSON body, checks the HTTP status, validates the payload
and, on success, writes the three coordinate gauges.

We model one poll as a pure function of the outcome of the two fallible
steps (`fetch` and `response.json()`), returning the ordered trace of
observable effects (error-log calls and gauge `set` calls).  The
surrounding try/catch is made explicit by running the fallible prefix in
`Except` and pattern matching on the result, exactly as the source's
`try { ... } catch (error) { ... }` does.  `Except.ok` on the outer
function means the call returned normally; `Except.error` would mean an
exception escaped `loadPosition`.
-/

namespace IssMetrics

/-- A JavaScript number: a finite value (modelled as a rational) or NaN.
Gauge values and the results of the source's `Number(...)` coercions live
here. -/
inductive JSNum where
  | num (q : ℚ)
  | nan
  deriving DecidableEq, Repr

/-- A JavaScript/JSON value, as far as the poll body inspects it: the
parsed response `data` and its `latitude` / `longitude` / `altitude`
properties. -/
inductive JSValue where
  | undefined
  | null
  | boolean (b : Bool)
  | number (n : JSNum)
  | string (s : String)
  | object (fields : List (String × JSValue))

/-- JavaScript truthiness, as used by the source's `!data`,
`!data.altitude`, `!data.latitude`, `!data.longitude` checks. -/
def truthy : JSValue → Bool
  | .undefined => false
  | .null => false
  | .boolean b => b
  | .number (.num q) => q != 0
  | .number .nan => false
  | .string s => s != ""
  | .object _ => true

/-- Property access `v.key`: lookup on an object (absent keys give
`undefined`); on every non-object the properties read by the poll body are
`undefined`.  (Access on `null`/`undefined` would throw in JavaScript, but
the source's `||` chain short-circuits before ever reading a property of a
falsy `data`, so that case is unreachable on the paths we model.) -/
def getField (v : JSValue) (key : String) : JSValue :=
  match v with
  | .object fields =>
      match fields.lookup key with
      | some w => w
      | none => .undefined
  | _ => .undefined

/-- Value of a list of decimal digit characters. -/
def digitsVal (cs : List Char) : ℕ :=
  cs.foldl (fun a c => 10 * a + (c.toNat - 48)) 0

/-- Parse an unsigned decimal literal `digits` or `digits.digits` or
`.digits`; other shapes are not numeric. -/
def parseUnsigned (cs : List Char) : Option ℚ :=
  let intPart := cs.takeWhile Char.isDigit
  let rest := cs.dropWhile Char.isDigit
  match rest with
  | [] => if intPart.isEmpty then none else some (digitsVal intPart)
  | '.' :: frac =>
      if frac.all Char.isDigit && !(intPart.isEmpty && frac.isEmpty) then
        some ((digitsVal intPart : ℚ) + (digitsVal frac : ℚ) / (10 ^ frac.length))
      else
        none
  | _ => none

/-- Parse an optionally signed decimal literal. -/
def parseDecimal : List Char → Option ℚ
  | '-' :: rest => (parseUnsigned rest).map Neg.neg
  | '+' :: rest => parseUnsigned rest
  | cs => parseUnsigned cs

/-- Whitespace stripped by string-to-number conversion. -/
def isJsSpace (c : Char) : Bool :=
  c = ' ' || c = '\t' || c = '\n' || c = '\r'

/-- String-to-number conversion: a whitespace-only string is 0, a decimal
literal is its value, anything else is NaN.  (Models JavaScript ToNumber on
strings for plain decimal literals; exotic forms such as hex or exponents
do not occur in any property considered here.) -/
def strToNum (s : String) : JSNum :=
  let t := ((s.data.dropWhile isJsSpace).reverse.dropWhile isJsSpace).reverse
  if t.isEmpty then .num 0
  else
    match parseDecimal t with
    | some q => .num q
    | none => .nan

/-- The source's `Number(x)` coercion. -/
def toNumber : JSValue → JSNum
  | .undefined => .nan
  | .null => .num 0
  | .boolean b => .num (if b then 1 else 0)
  | .number n => n
  | .string s => strToNum s
  | .object _ => .nan

/-- The slice of a fetch `Response` that `loadPosition` reads: the `ok`
success flag and the `statusText`. -/
structure Response where
  ok : Bool
  statusText : String
  deriving DecidableEq, Repr

/-- A thrown JavaScript error, as far as the catch block reads it:
`(error as Error).message`. -/
structure JsError where
  message : String
  deriving DecidableEq, Repr

/-- Outcome of the two awaited steps inside the try block of one poll:
`fetch` rejects (network failure or abort), `fetch` resolves but
`response.json()` rejects (malformed body), or both resolve. -/
inductive FetchOutcome where
  | fetchThrow (e : JsError)
  | parseThrow (r : Response) (e : JsError)
  | success (r : Response) (data : JSValue)

/-- The three `logError` call sites of `loadPosition`, each with the data
it logs: the catch block logs the thrown error's message, the status
branch logs the status text and the response object, the validation branch
logs the raw data. -/
inductive LogEvent where
  | fetchFailed (message : String)
  | badStatus (statusText : String) (r : Response)
  | unexpectedPayload (data : JSValue)

/-- One observable effect of a poll: an error-log call or a `set` on one
of the three gauges. -/
inductive Effect where
  | log (ev : LogEvent)
  | setLatitudeMetric (v : JSNum)
  | setLongitudeMetric (v : JSNum)
  | setAltitudeMetric (v : JSNum)

/-- The fallible prefix of the try block: returns the response and parsed
data, or the thrown error. -/
def fetchAndParse : FetchOutcome → Except JsError (Response × JSValue)
  | .fetchThrow e => .error e
  | .parseThrow _ e => .error e
  | .success r data => .ok (r, data)

/-- The source's validation condition
`!data || !data.altitude || !data.latitude || !data.longitude`
(note: truthiness, not presence or numeric type). -/
def invalidPayload (data : JSValue) : Bool :=
  !truthy data || !truthy (getField data "altitude") ||
    !truthy (getField data "latitude") || !truthy (getField data "longitude")

/-- One run of `loadPosition` given the outcome of its awaited steps.
Returns the ordered trace of effects; `Except.error` would mean an
exception escaped the function body. -/
def loadPosition (o : FetchOutcome) : Except JsError (List Effect) :=
  match fetchAndParse o with
  | .error e => .ok [.log (.fetchFailed e.message)]
  | .ok (response, data) =>
      if !response.ok then
        .ok [.log (.badStatus response.statusText response)]
      else if invalidPayload data then
        .ok [.log (.unexpectedPayload data)]
      else
        .ok [.setLatitudeMetric (toNumber (getField data "latitude")),
             .setLongitudeMetric (toNumber (getField data "longitude")),
             .setAltitudeMetric (toNumber (getField data "altitude"))]

/-- Current values of the three gauges (the only mutable state the poll
writes). -/
structure GaugeState where
  latitude : JSNum
  longitude : JSNum
  altitude : JSNum
  deriving DecidableEq, Repr

/-- Apply one effect to the gauge state; log calls do not touch gauges. -/
def applyEffect (g : GaugeState) : Effect → GaugeState
  | .log _ => g
  | .setLatitudeMetric v => { g with latitude := v }
  | .setLongitudeMetric v => { g with longitude := v }
  | .setAltitudeMetric v => { g with altitude := v }

/-- Apply a trace of effects, in order, to the gauge state. -/
def applyTrace (g : GaugeState) (t : List Effect) : GaugeState :=
  t.foldl applyEffect g

/-- An effect is a gauge write (as opposed to a log call). -/
def isSetEffect : Effect → Bool
  | .log _ => false
  | .setLatitudeMetric _ => true
  | .setLongitudeMetric _ => true
  | .setAltitudeMetric _ => true

/-- An outcome is on a failure path: the fetch or parse threw, the
response status is not success, or the payload fails validation. -/
def isFailureOutcome : FetchOutcome → Bool
  | .fetchThrow _ => true
  | .parseThrow _ _ => true
  | .success r data => !r.ok || invalidPayload data

/-- Modelled from the spec: the `schedule` utility
(imported from `./utilities.js`, whose source is not part of the
repository snapshot) awaits each invocation of the task to completion and
only then arms the interval timer for the next invocation.  Given the
interval and each invocation's duration, `invocationStart interval dur n`
is the start time of invocation `n`: invocation 0 starts when scheduling
begins, and invocation `n+1` starts one interval after invocation `n`
completed. -/
def invocationStart (interval : ℕ) (dur : ℕ → ℕ) : ℕ → ℕ
  | 0 => 0
  | n + 1 => invocationStart interval dur n + dur n + interval

/-- Completion time of invocation `n` under the spec-modelled scheduler. -/
def invocationEnd (interval : ℕ) (dur : ℕ → ℕ) (n : ℕ) : ℕ :=
  invocationStart interval dur n + dur n


/-- Helper: a trace consisting of one log call leaves the gauges as they
were. -/
theorem applyTrace_single_log (g : GaugeState) (ev : LogEvent) :
    applyTrace g [Effect.log ev] = g := rfl

/-- C1: on every failure path (fetch/parse rejection, non-success HTTP
status, or payload validation failure) the poll emits a single log call
and no gauge write, so all three gauges retain their previous values. -/
theorem failed_poll_preserves_gauges (o : FetchOutcome) (g : GaugeState)
    (h : isFailureOutcome o = true) :
    ∃ ev : LogEvent, loadPosition o = Except.ok [Effect.log ev] ∧
      applyTrace g [Effect.log ev] = g := by
  cases o with
  | fetchThrow e => exact ⟨.fetchFailed e.message, rfl, rfl⟩
  | parseThrow r e => exact ⟨.fetchFailed e.message, rfl, rfl⟩
  | success r data =>
      by_cases hok : r.ok
      · have hinv : invalidPayload data = true := by
          simpa [isFailureOutcome, hok] using h
        exact ⟨.unexpectedPayload data, by simp [loadPosition, fetchAndParse, hok, hinv], rfl⟩
      · exact ⟨.badStatus r.statusText r,
          by simp [loadPosition, fetchAndParse, hok], rfl⟩

/-- Witness for C1 at a concrete failing poll and gauge state. -/
theorem failed_poll_preserves_gauges_witness :
    ∃ ev : LogEvent,
      loadPosition (.fetchThrow ⟨"network down"⟩) = Except.ok [Effect.log ev] ∧
      applyTrace ⟨.num 1, .num 2, .num 3⟩ [Effect.log ev] = ⟨.num 1, .num 2, .num 3⟩ :=
  failed_poll_preserves_gauges (.fetchThrow ⟨"network down"⟩) ⟨.num 1, .num 2, .num 3⟩ rfl

/-- C2: `loadPosition` never throws — for every outcome of the fetch and
parse steps it returns normally, and on every failure outcome the failure
has been logged inside the call. -/
theorem loadPosition_never_throws (o : FetchOutcome) :
    ∃ t : List Effect, loadPosition o = Except.ok t ∧
      (isFailureOutcome o = true → ∃ ev, Effect.log ev ∈ t) := by
  cases o with
  | fetchThrow e => exact ⟨_, rfl, fun _ => ⟨.fetchFailed e.message, by simp⟩⟩
  | parseThrow r e => exact ⟨_, rfl, fun _ => ⟨.fetchFailed e.message, by simp⟩⟩
  | success r data =>
      by_cases hok : r.ok
      · by_cases hinv : invalidPayload data
        · exact ⟨[Effect.log (.unexpectedPayload data)],
            by simp [loadPosition, fetchAndParse, hok, hinv],
            fun _ => ⟨.unexpectedPayload data, by simp⟩⟩
        · refine ⟨[.setLatitudeMetric (toNumber (getField data "latitude")),
              .setLongitudeMetric (toNumber (getField data "longitude")),
              .setAltitudeMetric (toNumber (getField data "altitude"))],
            by simp [loadPosition, fetchAndParse, hok, hinv], fun hfail => ?_⟩
          simp [isFailureOutcome, hok, hinv] at hfail
      · exact ⟨[Effect.log (.badStatus r.statusText r)],
          by simp [loadPosition, fetchAndParse, hok],
          fun _ => ⟨.badStatus r.statusText r, by simp⟩⟩

/-- Witness for C2 at a concrete transport failure. -/
theorem loadPosition_never_throws_witness :
    ∃ t : List Effect,
      loadPosition (.fetchThrow ⟨"socket hang up"⟩) = Except.ok t ∧
      (isFailureOutcome (.fetchThrow ⟨"socket hang up"⟩) = true →
        ∃ ev, Effect.log ev ∈ t) :=
  loadPosition_never_throws (.fetchThrow ⟨"socket hang up"⟩)

/-- C3: happy path — when the fetch and parse succeed, the status is
success, and the three coordinate fields are truthy numbers, the trace is
exactly the three gauge writes, each set to that field's numeric value, in
source order (latitude, longitude, altitude). -/
theorem happy_path_sets_gauges (r : Response) (data : JSValue) (la lo al : ℚ)
    (hok : r.ok = true)
    (hd : truthy data = true)
    (hla : getField data "latitude" = .number (.num la)) (hla0 : la ≠ 0)
    (hlo : getField data "longitude" = .number (.num lo)) (hlo0 : lo ≠ 0)
    (hal : getField data "altitude" = .number (.num al)) (hal0 : al ≠ 0) :
    loadPosition (.success r data) =
      Except.ok [Effect.setLatitudeMetric (.num la),
        Effect.setLongitudeMetric (.num lo),
        Effect.setAltitudeMetric (.num al)] := by
  have hinv : invalidPayload data = false := by
    simp only [invalidPayload, hd, hla, hlo, hal]
    simp [truthy, bne_iff_ne, hla0, hlo0, hal0]
  simp [loadPosition, fetchAndParse, hok, hinv, hla, hlo, hal, toNumber]

/-- Witness for C3 at the spec's example reading
latitude 51.5, longitude -0.1, altitude 408.2. -/
theorem happy_path_sets_gauges_witness :
    loadPosition (.success ⟨true, "OK"⟩ (.object
      [("latitude", .number (.num (103 / 2))),
       ("longitude", .number (.num (-1 / 10))),
       ("altitude", .number (.num (2041 / 5)))])) =
      Except.ok [Effect.setLatitudeMetric (.num (103 / 2)),
        Effect.setLongitudeMetric (.num (-1 / 10)),
        Effect.setAltitudeMetric (.num (2041 / 5))] :=
  happy_path_sets_gauges _ _ _ _ _ rfl rfl rfl (by norm_num) rfl (by norm_num)
    rfl (by norm_num)

/-- C4: zero-value quirk — a successfully fetched and parsed payload with
success status in which any one of the three coordinate fields is exactly
0 fails validation; the unexpected-payload error is logged with the raw
data and no gauge is written. -/
theorem zero_coordinate_rejected (r : Response) (data : JSValue)
    (hok : r.ok = true)
    (h : getField data "latitude" = .number (.num 0) ∨
      getField data "longitude" = .number (.num 0) ∨
      getField data "altitude" = .number (.num 0)) :
    loadPosition (.success r data) =
      Except.ok [Effect.log (.unexpectedPayload data)] := by
  have hinv : invalidPayload data = true := by
    rcases h with h | h | h <;> simp [invalidPayload, h, truthy]
  simp [loadPosition, fetchAndParse, hok, hinv]

/-- Witness for C4 at the spec's example reading
latitude 0, longitude 12.3, altitude 400. -/
theorem zero_coordinate_rejected_witness :
    loadPosition (.success ⟨true, "OK"⟩ (.object
      [("latitude", .number (.num 0)),
       ("longitude", .number (.num (123 / 10))),
       ("altitude", .number (.num 400))])) =
      Except.ok [Effect.log (.unexpectedPayload (.object
        [("latitude", .number (.num 0)),
         ("longitude", .number (.num (123 / 10))),
         ("altitude", .number (.num 400))]))] :=
  zero_coordinate_rejected _ _ rfl (Or.inl rfl)

/-- C5: transport and parse failures — when the fetch rejects, or the
fetch resolves but the body parse rejects, the trace is a single log call
carrying the thrown error's message, gauges are untouched, and the parse
failure takes the identical path as the network failure. -/
theorem transport_and_parse_failures_logged (e : JsError) (r : Response) :
    loadPosition (.fetchThrow e) =
      Except.ok [Effect.log (.fetchFailed e.message)] ∧
    loadPosition (.parseThrow r e) = loadPosition (.fetchThrow e) ∧
    ∀ g : GaugeState, applyTrace g [Effect.log (.fetchFailed e.message)] = g :=
  ⟨rfl, rfl, fun _ => rfl⟩

/-- C6: non-success HTTP status after a successful parse — the trace is a
single log call carrying the response's status text and the response
object, and no gauge is written. -/
theorem bad_status_logged (r : Response) (data : JSValue) (h : r.ok = false) :
    loadPosition (.success r data) =
      Except.ok [Effect.log (.badStatus r.statusText r)] := by
  simp [loadPosition, fetchAndParse, h]

/-- Witness for C6 at a 500-style response with a valid-looking body. -/
theorem bad_status_logged_witness :
    loadPosition (.success ⟨false, "Internal Server Error"⟩ (.object
      [("latitude", .number (.num (103 / 2))),
       ("longitude", .number (.num (-1 / 10))),
       ("altitude", .number (.num (2041 / 5)))])) =
      Except.ok [Effect.log (.badStatus "Internal Server Error"
        ⟨false, "Internal Server Error"⟩)] :=
  bad_status_logged ⟨false, "Internal Server Error"⟩ _ rfl


/-- C7: ordering of error checks — when the body parse throws on a
non-success response, the flow exits through the catch branch logging the
underlying message; the status-check branch (which would log the status
text) is never reached, so no bad-status log appears in the trace. -/
theorem parse_throw_on_bad_status_takes_catch_branch (r : Response)
    (e : JsError) (_h : r.ok = false) :
    loadPosition (.parseThrow r e) =
      Except.ok [Effect.log (.fetchFailed e.message)] ∧
    ∀ t, loadPosition (.parseThrow r e) = Except.ok t →
      Effect.log (.badStatus r.statusText r) ∉ t := by
  refine ⟨rfl, fun t ht => ?_⟩
  have : t = [Effect.log (.fetchFailed e.message)] := by
    simpa [loadPosition, fetchAndParse] using ht.symm
  subst this
  simp

/-- Witness for C7: parse failure on a 500-style response. -/
theorem parse_throw_on_bad_status_takes_catch_branch_witness :
    (loadPosition (.parseThrow ⟨false, "Internal Server Error"⟩
        ⟨"Unexpected token < in JSON"⟩) =
      Except.ok [Effect.log (.fetchFailed "Unexpected token < in JSON")] ∧
    ∀ t, loadPosition (.parseThrow ⟨false, "Internal Server Error"⟩
        ⟨"Unexpected token < in JSON"⟩) = Except.ok t →
      Effect.log (.badStatus "Internal Server Error"
        ⟨false, "Internal Server Error"⟩) ∉ t) :=
  parse_throw_on_bad_status_takes_catch_branch
    ⟨false, "Internal Server Error"⟩ ⟨"Unexpected token < in JSON"⟩ rfl

/-- C8: no partial updates — every trace `loadPosition` can return either
contains a write to each of the three gauges, or contains no gauge write
at all; no run writes a strict non-empty subset of the gauges. -/
theorem no_partial_gauge_updates (o : FetchOutcome) (t : List Effect)
    (h : loadPosition o = Except.ok t) :
    ((∃ v, Effect.setLatitudeMetric v ∈ t) ∧
      (∃ v, Effect.setLongitudeMetric v ∈ t) ∧
      (∃ v, Effect.setAltitudeMetric v ∈ t)) ∨
      (∀ e ∈ t, isSetEffect e = false) := by
  cases o with
  | fetchThrow e =>
      have : t = [Effect.log (.fetchFailed e.message)] := by
        simpa [loadPosition, fetchAndParse] using h.symm
      subst this
      exact Or.inr (by simp [isSetEffect])
  | parseThrow r e =>
      have : t = [Effect.log (.fetchFailed e.message)] := by
        simpa [loadPosition, fetchAndParse] using h.symm
      subst this
      exact Or.inr (by simp [isSetEffect])
  | success r data =>
      by_cases hok : r.ok
      · by_cases hinv : invalidPayload data
        · have : t = [Effect.log (.unexpectedPayload data)] := by
            simpa [loadPosition, fetchAndParse, hok, hinv] using h.symm
          subst this
          exact Or.inr (by simp [isSetEffect])
        · have : t = [Effect.setLatitudeMetric (toNumber (getField data "latitude")),
              Effect.setLongitudeMetric (toNumber (getField data "longitude")),
              Effect.setAltitudeMetric (toNumber (getField data "altitude"))] := by
            simpa [loadPosition, fetchAndParse, hok, hinv] using h.symm
          subst this
          exact Or.inl ⟨⟨toNumber (getField data "latitude"), by simp⟩,
            ⟨toNumber (getField data "longitude"), by simp⟩,
            ⟨toNumber (getField data "altitude"), by simp⟩⟩
      · have : t = [Effect.log (.badStatus r.statusText r)] := by
          simpa [loadPosition, fetchAndParse, hok] using h.symm
        subst this
        exact Or.inr (by simp [isSetEffect])

/-- Witness for C8 at a concrete successful poll. -/
theorem no_partial_gauge_updates_witness :
    ((∃ v, Effect.setLatitudeMetric v ∈
        [Effect.setLatitudeMetric (JSNum.num 10),
         Effect.setLongitudeMetric (JSNum.num 20),
         Effect.setAltitudeMetric (JSNum.num 30)]) ∧
      (∃ v, Effect.setLongitudeMetric v ∈
        [Effect.setLatitudeMetric (JSNum.num 10),
         Effect.setLongitudeMetric (JSNum.num 20),
         Effect.setAltitudeMetric (JSNum.num 30)]) ∧
      (∃ v, Effect.setAltitudeMetric v ∈
        [Effect.setLatitudeMetric (JSNum.num 10),
         Effect.setLongitudeMetric (JSNum.num 20),
         Effect.setAltitudeMetric (JSNum.num 30)])) ∨
      (∀ e ∈ [Effect.setLatitudeMetric (JSNum.num 10),
         Effect.setLongitudeMetric (JSNum.num 20),
         Effect.setAltitudeMetric (JSNum.num 30)], isSetEffect e = false) :=
  no_partial_gauge_updates (.success ⟨true, "OK"⟩ (.object
      [("latitude", .number (.num 10)),
       ("longitude", .number (.num 20)),
       ("altitude", .number (.num 30))])) _ rfl

/-- C9: scheduler non-overlap — under the spec-modelled scheduler, which
arms the next interval timer only after the current invocation completes,
every earlier invocation has finished (one full interval earlier) before a
later one starts, whatever the invocation durations; a long poll delays
but never overlaps the next one. -/
theorem scheduler_invocations_never_overlap (interval : ℕ) (dur : ℕ → ℕ)
    (m n : ℕ) (h : m < n) :
    invocationEnd interval dur m + interval ≤ invocationStart interval dur n := by
  induction n with
  | zero => omega
  | succ k ih =>
      rcases Nat.lt_succ_iff_lt_or_eq.mp h with hlt | heq
      · have hk : invocationStart interval dur k ≤
            invocationStart interval dur (k + 1) := by
          simp only [invocationStart]
          omega
        exact le_trans (ih hlt) hk
      · subst heq
        simp only [invocationEnd, invocationStart]
        omega

/-- Witness for C9: with a 5 ms interval and every poll lasting 7 ms
(longer than the interval), invocation 0 ends a full interval before
invocation 1 starts. -/
theorem scheduler_invocations_never_overlap_witness :
    invocationEnd 5 (fun _ => 7) 0 + 5 ≤ invocationStart 5 (fun _ => 7) 1 :=
  scheduler_invocations_never_overlap 5 (fun _ => 7) 0 1 (by decide)

/-- C10: validation is truthiness-only — whenever the status is success
and the payload and its three coordinate fields are truthy, validation
passes regardless of the fields' types: the trace is exactly the three
gauge writes of the `Number(...)` coercions (which may be NaN for a
non-numeric string) and contains no log call. -/
theorem truthy_payload_accepted_without_type_check (r : Response)
    (data : JSValue)
    (hok : r.ok = true)
    (hd : truthy data = true)
    (hla : truthy (getField data "latitude") = true)
    (hlo : truthy (getField data "longitude") = true)
    (hal : truthy (getField data "altitude") = true) :
    loadPosition (.success r data) =
      Except.ok [Effect.setLatitudeMetric (toNumber (getField data "latitude")),
        Effect.setLongitudeMetric (toNumber (getField data "longitude")),
        Effect.setAltitudeMetric (toNumber (getField data "altitude"))] ∧
    ∀ t, loadPosition (.success r data) = Except.ok t →
      ∀ ev, Effect.log ev ∉ t := by
  have hinv : invalidPayload data = false := by
    simp [invalidPayload, hd, hla, hlo, hal]
  have htrace : loadPosition (.success r data) =
      Except.ok [Effect.setLatitudeMetric (toNumber (getField data "latitude")),
        Effect.setLongitudeMetric (toNumber (getField data "longitude")),
        Effect.setAltitudeMetric (toNumber (getField data "altitude"))] := by
    simp [loadPosition, fetchAndParse, hok, hinv]
  refine ⟨htrace, fun t ht ev => ?_⟩
  rw [htrace] at ht
  obtain rfl := Except.ok.inj ht
  simp

/-- Witness for C10: a truthy but non-numeric latitude string passes
validation and the latitude gauge is set to NaN, with no log call. -/
theorem truthy_payload_accepted_without_type_check_witness :
    loadPosition (.success ⟨true, "OK"⟩ (.object
      [("latitude", .string "fast"),
       ("longitude", .number (.num 12)),
       ("altitude", .number (.num 400))])) =
      Except.ok [Effect.setLatitudeMetric JSNum.nan,
        Effect.setLongitudeMetric (.num 12),
        Effect.setAltitudeMetric (.num 400)] := by
  have h := truthy_payload_accepted_without_type_check ⟨true, "OK"⟩
    (.object [("latitude", .string "fast"),
      ("longitude", .number (.num 12)),
      ("altitude", .number (.num 400))]) rfl rfl (by decide)
    (by decide) (by decide)
  rw [h.1]
  rfl


end IssMetrics
